import Mathlib

/-!
Verification development for the PanelCleaner core:
the box model of pcleaner/structures.py (PageData, overlap resolution,
growth and padding, MaskFittingResults) and the stage-invalidation engine
of pcleaner/gui/image_file.py (ProcessStep, Step, the step table).

Python tuples (x1, y1, x2, y2) become the Box structure; Python ints are
Int; list mutation becomes functional update; the Python set used by
resolve_overlaps becomes a duplicate-free list whose pop takes the head.
-/

namespace PCleaner

/-- A box (x1, y1, x2, y2): (x1, y1) the top left corner, (x2, y2) the
bottom right corner, in source-image pixel coordinates. -/
structure Box where
  x1 : Int
  y1 : Int
  x2 : Int
  y2 : Int
deriving DecidableEq, Repr

/-- structures.py BoxType enumeration. -/
inductive BoxType where
  | BOX
  | EXTENDED_BOX
  | MERGED_EXT_BOX
  | REFERENCE_BOX
deriving DecidableEq, Repr

/-- structures.py PageData: the per-page record of boxes and metadata.
The cached image size is an Option, none until resolved. -/
structure PageData where
  image_path : String
  mask_path : String
  original_path : String
  scale : Float
  boxes : List Box
  extended_boxes : List Box
  merged_extended_boxes : List Box
  reference_boxes : List Box
  _image_size : Option (Int × Int) := none

/-- PageData.boxes_from_type: select the collection named by the BoxType. -/
def boxes_from_type (p : PageData) (box_type : BoxType) : List Box :=
  match box_type with
  | .BOX => p.boxes
  | .EXTENDED_BOX => p.extended_boxes
  | .MERGED_EXT_BOX => p.merged_extended_boxes
  | .REFERENCE_BOX => p.reference_boxes

/-- Writing the mutated list back through the alias returned by
boxes_from_type, as the in-place loops of grow_boxes and right_pad_boxes do. -/
def set_boxes (p : PageData) (box_type : BoxType) (bs : List Box) : PageData :=
  match box_type with
  | .BOX => { p with boxes := bs }
  | .EXTENDED_BOX => { p with extended_boxes := bs }
  | .MERGED_EXT_BOX => { p with merged_extended_boxes := bs }
  | .REFERENCE_BOX => { p with reference_boxes := bs }

/-- PageData.image_size: return the cached size when present; otherwise read
the working image metadata (the magic.from_file call plus the regex parse,
modelled by the metadata argument), cache it, and return it. A metadata of
none models an unparsable file, where the Python property raises. -/
def image_size (p : PageData) (metadata : Option (Int × Int)) :
    Option ((Int × Int) × PageData) :=
  match p._image_size with
  | some s => some (s, p)
  | none =>
    match metadata with
    | some s => some (s, { p with _image_size := some s })
    | none => none

/-- The per-box body of the loop in PageData.grow_boxes: grow all four
sides by padding, clamping into the image bounds. -/
def grow_box (padding image_width image_height : Int) (b : Box) : Box :=
  { x1 := max (b.x1 - padding) 0
    y1 := max (b.y1 - padding) 0
    x2 := min (b.x2 + padding) image_width
    y2 := min (b.y2 + padding) image_height }

/-- PageData.grow_boxes: uniformly grow all boxes of the named collection by
padding pixels, in place, reading the image size (lazily resolved) first. -/
def grow_boxes (p : PageData) (padding : Int) (box_type : BoxType)
    (metadata : Option (Int × Int)) : Option PageData :=
  match image_size p metadata with
  | none => none
  | some ((w, h), p') =>
    some (set_boxes p' box_type ((boxes_from_type p' box_type).map (grow_box padding w h)))

/-- The per-box body of the loop in PageData.right_pad_boxes. -/
def right_pad_box (padding image_width : Int) (b : Box) : Box :=
  { b with x2 := min (b.x2 + padding) image_width }

/-- PageData.right_pad_boxes: right-pad all boxes of the named collection by
padding pixels, in place, reading the image size (lazily resolved) first. -/
def right_pad_boxes (p : PageData) (padding : Int) (box_type : BoxType)
    (metadata : Option (Int × Int)) : Option PageData :=
  match image_size p metadata with
  | none => none
  | some ((w, _h), p') =>
    some (set_boxes p' box_type ((boxes_from_type p' box_type).map (right_pad_box padding w)))

/-- PageData.box_size: the area of a box. -/
def box_size (b : Box) : Int :=
  (b.x2 - b.x1) * (b.y2 - b.y1)

/-- The boxes_overlap helper inside resolve_overlaps: the closed intervals of
both axes intersect; touching edges count (inclusive comparisons). -/
def boxes_overlap (box1 box2 : Box) : Bool :=
  (box1.x1 ≤ box2.x2 && box2.x1 ≤ box1.x2) && (box1.y1 ≤ box2.y2 && box2.y1 ≤ box1.y2)

/-- The merge_boxes helper inside resolve_overlaps: the smallest box
containing both. -/
def merge_boxes (box1 box2 : Box) : Box :=
  { x1 := min box1.x1 box2.x1
    y1 := min box1.y1 box2.y1
    x2 := max box1.x2 box2.x2
    y2 := max box1.y2 box2.y2 }

/-- Structural recursion on an explicit bound (the list length shrinks at
every step, so any fuel of at least the length gives the fixpoint). -/
def merge_queue_of_fuel : Nat → List Box → List Box
  | 0, _ => []
  | _, [] => []
  | fuel + 1, b :: rest => b :: merge_queue_of_fuel fuel (rest.filter (fun c => c != b))

/-- The conversion set(self.extended_boxes): duplicates collapse. The working
set is modelled as a duplicate-free list keeping first occurrences; pop takes
the head (the Python set pops in an unspecified order). -/
def merge_queue_of (l : List Box) : List Box :=
  merge_queue_of_fuel l.length l

/-- Structural recursion on an explicit bound (the queue shrinks at every
step, so any fuel of at least the length gives the fixpoint). -/
def resolve_loop_fuel : Nat → List Box → List Box
  | 0, _ => []
  | _, [] => []
  | fuel + 1, box :: rest =>
    ((rest.filter (fun b => boxes_overlap box b)).foldl merge_boxes box)
      :: resolve_loop_fuel fuel (rest.filter (fun b => !(boxes_overlap box b)))

/-- The while loop of resolve_overlaps: pop a box, collect the boxes of the
remaining queue overlapping the popped box (scanned once, against the popped
box only), fold them into it with merge_boxes while removing them from the
queue, append the result, repeat until the queue is empty. -/
def resolve_loop (queue : List Box) : List Box :=
  resolve_loop_fuel queue.length queue

/-- PageData.resolve_overlaps: rebuild merged_extended_boxes from
extended_boxes by merging overlapping boxes. -/
def resolve_overlaps (p : PageData) : PageData :=
  { p with merged_extended_boxes := resolve_loop (merge_queue_of p.extended_boxes) }

/-- Convenience builder for concrete pages in the statements below. -/
def mkPage (bs ext : List Box) : PageData :=
  { image_path := "page.png"
    mask_path := "mask.png"
    original_path := "orig.png"
    scale := 1.0
    boxes := bs
    extended_boxes := ext
    merged_extended_boxes := []
    reference_boxes := [] }

/-- Specification-side notion: outer contains inner coordinate-wise. -/
def box_contains (outer inner : Box) : Prop :=
  outer.x1 ≤ inner.x1 ∧ outer.y1 ≤ inner.y1 ∧ inner.x2 ≤ outer.x2 ∧ inner.y2 ≤ outer.y2

instance (a b : Box) : Decidable (box_contains a b) := by
  unfold box_contains; infer_instance

/-- Specification-side notion: the integer point (x, y) lies in the closed
region of the box. -/
def covers_point (b : Box) (x y : Int) : Prop :=
  b.x1 ≤ x ∧ x ≤ b.x2 ∧ b.y1 ≤ y ∧ y ≤ b.y2

instance (b : Box) (x y : Int) : Decidable (covers_point b x y) := by
  unfold covers_point; infer_instance

/-- Specification-side notion: the union of the boxes, as a set of covered
integer points, contains (x, y). -/
def union_covers (l : List Box) (x y : Int) : Prop :=
  ∃ b ∈ l, covers_point b x y

instance (l : List Box) (x y : Int) : Decidable (union_covers l x y) := by
  unfold union_covers; exact List.decidableBEx _ l

/-- Opaque handle standing in for a PIL Image bitmap; pixel contents play no
role in the properties below. -/
def ImageHandle := Nat

/-- structures.py MaskFittingResults: the results of the mask fitting
process. The Python best_mask of Image or None becomes an Option. -/
structure MaskFittingResults where
  best_mask : Option ImageHandle
  median_color : Int
  mask_coords : Int × Int
  analytics_page_path : String
  analytics_std_deviation : Float
  analytics_mask_index : Int
  mask_box : Box
  debug_masks : List ImageHandle

/-- MaskFittingResults.analytics: (page path, success flag, mask index,
standard deviation); the success flag is best_mask is not None. -/
def MaskFittingResults.analytics (r : MaskFittingResults) :
    String × Bool × Int × Float :=
  (r.analytics_page_path, r.best_mask.isSome, r.analytics_mask_index,
    r.analytics_std_deviation)

/-- MaskFittingResults.failed: best_mask is None. -/
def MaskFittingResults.failed (r : MaskFittingResults) : Bool :=
  r.best_mask.isNone

/-- MaskFittingResults.mask_data: (best_mask, median_color, mask_coords). -/
def MaskFittingResults.mask_data (r : MaskFittingResults) :
    Option ImageHandle × Int × (Int × Int) :=
  (r.best_mask, r.median_color, r.mask_coords)

/-- MaskFittingResults.noise_mask_data: (mask_box, analytics_std_deviation). -/
def MaskFittingResults.noise_mask_data (r : MaskFittingResults) :
    Box × Float :=
  (r.mask_box, r.analytics_std_deviation)

/-- Modelled from the spec: pcleaner/config.py is not among the sources, so
the configuration snapshot type cfg.Profile is modelled from the spec as a
flat ordered mapping from stable string field keys to serialized values
(section 9 of the spec), with both snapshots of a comparison listing the
same keys in the same structural order. -/
abbrev Profile := List (String × String)

/-- The attrs include filter built in ProcessStep.__init__: none is the
special case where all profile entries affect the step; otherwise only the
listed field keys pass the filter. -/
def is_tracked : Option (List String) → String → Bool
  | none, _ => true
  | some keys, k => keys.contains k

/-- attrs.asdict(profile, filter=self._sensitivity_filter): project the
snapshot down to exactly the tracked fields. -/
def asdict_filtered (filt : Option (List String)) (profile : Profile) : Profile :=
  profile.filter (fun kv => is_tracked filt kv.1)

/-- json.dumps(d, sort_keys=True): canonical serialization with stable key
ordering. -/
def json_dumps_sorted (d : Profile) : String :=
  "\x7b" ++ String.intercalate ", "
    ((d.mergeSort (fun a b => decide (a.1 ≤ b.1))).map
      (fun kv => "\"" ++ kv.1 ++ "\": " ++ kv.2)) ++ "\x7d"

/-- str.encode(): the UTF-8 bytes of the serialized data. -/
def encode (s : String) : List Nat :=
  s.toUTF8.toList.map (fun b => b.toNat)

/-- One bit step of the CRC-32 feedback shift register. -/
def crc32_step (c : Nat) : Nat :=
  if c % 2 == 1 then Nat.xor (c / 2) 0xEDB88320 else c / 2

/-- Fold one byte into the CRC-32 register. -/
def crc32_byte (c b : Nat) : Nat :=
  (List.range 8).foldl (fun acc _ => crc32_step acc) (Nat.xor c (b % 256))

/-- zlib.crc32 over a byte sequence. -/
def crc32 (data : List Nat) : Nat :=
  Nat.xor (data.foldl crc32_byte 0xFFFFFFFF) 0xFFFFFFFF

/-- ProcessStep._profile_checksum: the crc32 of the canonical serialization
of the tracked slice of the profile. -/
def profile_checksum (filt : Option (List String)) (profile : Profile) : Nat :=
  crc32 (encode (json_dumps_sorted (asdict_filtered filt profile)))

/-- image_file.py ProcessStep: a step in the image processing pipeline,
remembering which profile entries affect it and the checksum of their values
as of the last (re)computation; the checksum is absent before the first
computation. -/
structure ProcessStep where
  description : String
  sensitivity_filter : Option (List String)
  current_profile_checksum : Option Nat := none

/-- ProcessStep.update_checksum: store the checksum of the profile entries
this step is sensitive to. -/
def update_checksum (ps : ProcessStep) (profile : Profile) : ProcessStep :=
  { ps with
    current_profile_checksum := some (profile_checksum ps.sensitivity_filter profile) }

/-- ProcessStep.is_profile_changed: the stored checksum differs from the
checksum of the given profile (a stored None differs from every integer). -/
def is_profile_changed (ps : ProcessStep) (profile : Profile) : Bool :=
  ps.current_profile_checksum != some (profile_checksum ps.sensitivity_filter profile)

/-- The profile entries referenced by ImageFile.__init__ when building the
step table: leaf fields of the general, text detector, preprocessor and
masker groups, plus the whole preprocessor and denoiser groups. -/
inductive FieldId where
  | input_size_scale
  | model_path
  | box_min_size
  | suspicious_box_min_size
  | box_padding_initial
  | box_right_padding_initial
  | preprocessor
  | mask_growth_step_pixels
  | mask_growth_steps
  | off_white_max_threshold
  | mask_improvement_threshold
  | mask_selection_fast
  | mask_max_standard_deviation
  | debug_mask_color
  | denoiser
deriving DecidableEq, Repr

/-- image_file.py Step: the canonical pipeline stages, in order. -/
inductive Step where
  | input
  | ai_mask
  | initial_boxes
  | final_boxes
  | box_mask
  | cut_mask
  | mask_layers
  | final_mask
  | mask_overlay
  | masked_image
  | denoiser_mask
  | denoised_image
deriving DecidableEq, Repr

instance : Fintype Step :=
  Fintype.ofList
    [.input, .ai_mask, .initial_boxes, .final_boxes, .box_mask, .cut_mask,
      .mask_layers, .final_mask, .mask_overlay, .masked_image, .denoiser_mask,
      .denoised_image]
    (by intro x; cases x <;> simp)

/-- The Enum auto() value of each Step; the canonical stage order is the
order of these values. -/
def stepValue : Step → Nat
  | .input => 1
  | .ai_mask => 2
  | .initial_boxes => 3
  | .final_boxes => 4
  | .box_mask => 5
  | .cut_mask => 6
  | .mask_layers => 7
  | .final_mask => 8
  | .mask_overlay => 9
  | .masked_image => 10
  | .denoiser_mask => 11
  | .denoised_image => 12

/-- The running settings list of ImageFile.__init__ as of the input step. -/
def settings_input : List FieldId :=
  [.input_size_scale]

/-- The settings list after adding the text detector model path. -/
def settings_ai_mask : List FieldId :=
  settings_input ++ [.model_path]

/-- The settings list after adding the initial box preprocessor fields. -/
def settings_initial_boxes : List FieldId :=
  settings_ai_mask ++
    [.box_min_size, .suspicious_box_min_size, .box_padding_initial,
      .box_right_padding_initial]

/-- The settings list after adding the whole preprocessor group. -/
def settings_final_boxes : List FieldId :=
  settings_initial_boxes ++ [.preprocessor]

/-- The settings list after adding the mask growth fields. -/
def settings_mask_layers : List FieldId :=
  settings_final_boxes ++ [.mask_growth_step_pixels, .mask_growth_steps]

/-- The settings list after adding the mask selection fields. -/
def settings_final_mask : List FieldId :=
  settings_mask_layers ++
    [.off_white_max_threshold, .mask_improvement_threshold, .mask_selection_fast,
      .mask_max_standard_deviation]

/-- The settings list after adding the whole denoiser group. -/
def settings_denoiser : List FieldId :=
  settings_final_mask ++ [.denoiser]

/-- The profile sensitivity list each stage receives in ImageFile.__init__
(mask_overlay receives settings plus the debug mask color, which is not added
to the running list). -/
def profile_sensitivity : Step → List FieldId
  | .input => settings_input
  | .ai_mask => settings_ai_mask
  | .initial_boxes => settings_initial_boxes
  | .final_boxes => settings_final_boxes
  | .box_mask => settings_final_boxes
  | .cut_mask => settings_final_boxes
  | .mask_layers => settings_mask_layers
  | .final_mask => settings_final_mask
  | .mask_overlay => settings_final_mask ++ [.debug_mask_color]
  | .masked_image => settings_final_mask
  | .denoiser_mask => settings_denoiser
  | .denoised_image => settings_denoiser

theorem box_contains_refl (a : Box) : box_contains a a := by
  unfold box_contains; omega

theorem box_contains_trans {a b c : Box} (h1 : box_contains a b) (h2 : box_contains b c) :
    box_contains a c := by
  unfold box_contains at *; omega

theorem merge_boxes_contains_left (a b : Box) : box_contains (merge_boxes a b) a := by
  unfold box_contains merge_boxes; dsimp; omega

theorem merge_boxes_contains_right (a b : Box) : box_contains (merge_boxes a b) b := by
  unfold box_contains merge_boxes; dsimp; omega

theorem covers_point_mono {o b : Box} {x y : Int} (h : box_contains o b)
    (hc : covers_point b x y) : covers_point o x y := by
  unfold box_contains at h; unfold covers_point at *; omega

theorem foldl_merge_contains_init (l : List Box) (acc : Box) :
    box_contains (l.foldl merge_boxes acc) acc := by
  induction l generalizing acc with
  | nil => exact box_contains_refl acc
  | cons c t ih =>
    exact box_contains_trans (ih (merge_boxes acc c)) (merge_boxes_contains_left acc c)

theorem foldl_merge_contains_mem (l : List Box) (acc b : Box) (hb : b ∈ l) :
    box_contains (l.foldl merge_boxes acc) b := by
  induction l generalizing acc with
  | nil => cases hb
  | cons c t ih =>
    rcases List.mem_cons.mp hb with h | h
    · subst h
      exact box_contains_trans (foldl_merge_contains_init t (merge_boxes acc b))
        (merge_boxes_contains_right acc b)
    · exact ih (merge_boxes acc c) h

theorem mem_merge_queue_of_fuel (fuel : Nat) :
    ∀ (l : List Box), l.length ≤ fuel → ∀ (b : Box), b ∈ merge_queue_of_fuel fuel l ↔ b ∈ l := by
  induction fuel with
  | zero =>
    intro l hl b
    cases l with
    | nil => simp [merge_queue_of_fuel]
    | cons c rest => simp at hl
  | succ n ih =>
    intro l hl b
    cases l with
    | nil => simp [merge_queue_of_fuel]
    | cons c rest =>
      have hlen : (rest.filter (fun x => x != c)).length ≤ n :=
        le_trans (List.length_filter_le _ _) (Nat.succ_le_succ_iff.mp (by simpa using hl))
      by_cases hbc : b = c
      · subst hbc; simp [merge_queue_of_fuel]
      · simp only [merge_queue_of_fuel, List.mem_cons, hbc, false_or, ih _ hlen,
          List.mem_filter, bne_iff_ne, ne_eq, decide_eq_true_eq]
        tauto

theorem mem_merge_queue_of (l : List Box) (b : Box) :
    b ∈ merge_queue_of l ↔ b ∈ l :=
  mem_merge_queue_of_fuel l.length l (le_refl _) b

theorem resolve_loop_fuel_contains (fuel : Nat) :
    ∀ (queue : List Box), queue.length ≤ fuel →
      ∀ b ∈ queue, ∃ o ∈ resolve_loop_fuel fuel queue, box_contains o b := by
  induction fuel with
  | zero =>
    intro queue hq b hb
    cases queue with
    | nil => cases hb
    | cons c rest => simp at hq
  | succ n ih =>
    intro queue hq b hb
    cases queue with
    | nil => cases hb
    | cons box rest =>
      have hlen : (rest.filter (fun b => !(boxes_overlap box b))).length ≤ n :=
        le_trans (List.length_filter_le _ _) (Nat.succ_le_succ_iff.mp (by simpa using hq))
      rcases List.mem_cons.mp hb with rfl | hbr
      · exact ⟨_, List.mem_cons_self _ _, foldl_merge_contains_init _ _⟩
      · by_cases hov : boxes_overlap box b = true
        · exact ⟨_, List.mem_cons_self _ _,
            foldl_merge_contains_mem _ _ _ (List.mem_filter.mpr ⟨hbr, hov⟩)⟩
        · obtain ⟨o, ho, hc⟩ := ih _ hlen b (List.mem_filter.mpr ⟨hbr, by simp [hov]⟩)
          exact ⟨o, List.mem_cons_of_mem _ ho, hc⟩

theorem resolve_loop_contains (queue : List Box) :
    ∀ b ∈ queue, ∃ o ∈ resolve_loop queue, box_contains o b :=
  resolve_loop_fuel_contains queue.length queue (le_refl _)

theorem resolve_loop_fuel_length (fuel : Nat) :
    ∀ (queue : List Box), (resolve_loop_fuel fuel queue).length ≤ queue.length := by
  induction fuel with
  | zero => intro queue; simp [resolve_loop_fuel]
  | succ n ih =>
    intro queue
    cases queue with
    | nil => simp [resolve_loop_fuel]
    | cons box rest =>
      simp only [resolve_loop_fuel, List.length_cons, Nat.succ_le_succ_iff]
      exact le_trans (ih _) (List.length_filter_le _ _)

theorem resolve_loop_length (queue : List Box) :
    (resolve_loop queue).length ≤ queue.length :=
  resolve_loop_fuel_length queue.length queue

theorem set_boxes_image_size (p : PageData) (bt : BoxType) (bs : List Box) :
    (set_boxes p bt bs)._image_size = p._image_size := by
  cases bt <;> rfl

theorem asdict_filtered_congr (filt : Option (List String)) :
    ∀ (p1 p2 : Profile), p1.length = p2.length →
      (∀ kv ∈ List.zip p1 p2,
        kv.1.1 = kv.2.1 ∧ (is_tracked filt kv.1.1 = true → kv.1.2 = kv.2.2)) →
      asdict_filtered filt p1 = asdict_filtered filt p2 := by
  intro p1
  induction p1 with
  | nil =>
    intro p2 hlen _
    cases p2 with
    | nil => rfl
    | cons b t2 => simp at hlen
  | cons a t1 ih =>
    intro p2 hlen hzip
    cases p2 with
    | nil => simp at hlen
    | cons b t2 =>
      obtain ⟨h1, h2⟩ := hzip (a, b) (by rw [List.zip_cons_cons]; exact List.mem_cons_self _ _)
      have ht : asdict_filtered filt t1 = asdict_filtered filt t2 :=
        ih t2 (by simpa using hlen)
          (fun kv hkv => hzip kv (by rw [List.zip_cons_cons]; exact List.mem_cons_of_mem _ hkv))
      unfold asdict_filtered at *
      by_cases htr : is_tracked filt a.1 = true
      · have hb : is_tracked filt b.1 = true := by rw [← h1]; exact htr
        have hab : a = b := Prod.ext_iff.mpr ⟨h1, h2 htr⟩
        rw [List.filter_cons_of_pos (by simpa using htr),
          List.filter_cons_of_pos (by simpa using hb), ht, hab]
      · have hb : ¬ is_tracked filt b.1 = true := by rw [← h1]; exact htr
        rw [List.filter_cons_of_neg (by simpa using htr),
          List.filter_cons_of_neg (by simpa using hb), ht]

/-- C1: for the extended boxes (0,0,2,2), (5,5,7,7), (1,1,6,6) the overlap
resolver, which scans for partners only against the box popped from the
queue and never rescans the grown union, outputs (0,0,6,6) and (5,5,7,7):
two distinct merged boxes that overlap per the inclusive boxes_overlap test,
against the claimed pairwise non-overlap of the output. -/
theorem resolve_overlaps_output_can_overlap :
    (resolve_overlaps (mkPage [] [⟨0,0,2,2⟩, ⟨5,5,7,7⟩, ⟨1,1,6,6⟩])).merged_extended_boxes
      = [⟨0,0,6,6⟩, ⟨5,5,7,7⟩]
    ∧ boxes_overlap ⟨0,0,6,6⟩ ⟨5,5,7,7⟩ = true
    ∧ (⟨0,0,6,6⟩ : Box) ≠ ⟨5,5,7,7⟩ := by decide

/-- C2 counterexample: merging the overlapping extended boxes (0,0,2,2) and
(1,1,3,3) yields the bounding box (0,0,3,3), whose covered region includes
the point (0,3) that no input box covers, so the union of the outputs does
not equal the union of the inputs. -/
theorem resolve_overlaps_union_not_equal :
    union_covers
      (resolve_overlaps (mkPage [] [⟨0,0,2,2⟩, ⟨1,1,3,3⟩])).merged_extended_boxes 0 3
    ∧ ¬ union_covers (mkPage [] [⟨0,0,2,2⟩, ⟨1,1,3,3⟩]).extended_boxes 0 3 := by decide

/-- C2 amended: the union of the rectangles produced by the overlap resolver
is a superset (as covered integer points) of the union of the extended
boxes; it can be strictly larger, since overlapping boxes are replaced by
their bounding box. -/
theorem resolve_overlaps_union_superset (p : PageData) (x y : Int)
    (h : union_covers p.extended_boxes x y) :
    union_covers (resolve_overlaps p).merged_extended_boxes x y := by
  obtain ⟨b, hb, hcov⟩ := h
  obtain ⟨o, ho, hcont⟩ := resolve_loop_contains (merge_queue_of p.extended_boxes) b
    ((mem_merge_queue_of _ _).mpr hb)
  exact ⟨o, ho, covers_point_mono hcont hcov⟩

/-- C2 witness: a concrete covered point survives resolution. -/
theorem resolve_overlaps_union_superset_witness :
    union_covers (mkPage [] [⟨0,0,2,2⟩]).extended_boxes 1 1
    ∧ union_covers (resolve_overlaps (mkPage [] [⟨0,0,2,2⟩])).merged_extended_boxes 1 1 :=
  ⟨by decide, resolve_overlaps_union_superset _ 1 1 (by decide)⟩

/-- C3 counterexample: mask_overlay comes before masked_image in the
canonical order, yet tracks debug_mask_color, which masked_image does not
track, so the earlier stage is not a subset of the later one. -/
theorem mask_overlay_tracks_extra_field :
    stepValue .mask_overlay < stepValue .masked_image
    ∧ FieldId.debug_mask_color ∈ profile_sensitivity .mask_overlay
    ∧ FieldId.debug_mask_color ∉ profile_sensitivity .masked_image := by decide

/-- C3 amended: for every pair of stages A before B in the canonical order
where A is not mask_overlay, the tracked configuration fields of A are a
subset of those of B; mask_overlay alone additionally tracks
debug_mask_color, which the later stages do not. -/
theorem profile_sensitivity_cumulative :
    ∀ (a b : Step), stepValue a < stepValue b → a ≠ Step.mask_overlay →
      ∀ f ∈ profile_sensitivity a, f ∈ profile_sensitivity b := by decide

/-- C3 witness: the input stage field is tracked by the final stage. -/
theorem profile_sensitivity_cumulative_witness :
    stepValue Step.input < stepValue Step.denoised_image
    ∧ FieldId.input_size_scale ∈ profile_sensitivity Step.denoised_image :=
  ⟨by decide, profile_sensitivity_cumulative Step.input Step.denoised_image (by decide)
    (by decide) FieldId.input_size_scale (by decide)⟩

/-- C4 counterexample: on a page whose image size is unresolved, grow_boxes
does not fail: it reads the size from the image metadata, caches it, and
grows the boxes. -/
theorem grow_boxes_proceeds_without_cached_size :
    (mkPage [⟨1,1,3,3⟩] [])._image_size = none
    ∧ Option.map PageData.boxes
        (grow_boxes (mkPage [⟨1,1,3,3⟩] []) 2 BoxType.BOX (some (10, 10)))
      = some [⟨0,0,5,5⟩]
    ∧ Option.map PageData._image_size
        (grow_boxes (mkPage [⟨1,1,3,3⟩] []) 2 BoxType.BOX (some (10, 10)))
      = some (some (10, 10)) := by decide

/-- C4 amended: when the image size has not yet been resolved, grow_boxes
and right_pad_boxes implicitly resolve it from the image metadata, cache it
and proceed; they fail only when the metadata cannot be parsed. There is no
MissingImageSize condition. -/
theorem grow_boxes_lazy_size_resolution (p : PageData) (padding : Int) (bt : BoxType)
    (sz : Int × Int) (h : p._image_size = none) :
    (∃ q, grow_boxes p padding bt (some sz) = some q ∧ q._image_size = some sz)
    ∧ grow_boxes p padding bt none = none
    ∧ (∃ q, right_pad_boxes p padding bt (some sz) = some q ∧ q._image_size = some sz)
    ∧ right_pad_boxes p padding bt none = none := by
  cases sz with
  | mk w hh =>
    refine ⟨?_, by simp [grow_boxes, image_size, h], ?_,
      by simp [right_pad_boxes, image_size, h]⟩
    · unfold grow_boxes image_size
      rw [h]
      exact ⟨_, rfl, by rw [set_boxes_image_size]⟩
    · unfold right_pad_boxes image_size
      rw [h]
      exact ⟨_, rfl, by rw [set_boxes_image_size]⟩

/-- C4 witness: lazy resolution at a concrete page. -/
theorem grow_boxes_lazy_size_resolution_witness :
    (mkPage [⟨1,1,3,3⟩] [])._image_size = none
    ∧ ((∃ q, grow_boxes (mkPage [⟨1,1,3,3⟩] []) 2 BoxType.BOX (some (10, 10)) = some q
          ∧ q._image_size = some (10, 10))
      ∧ grow_boxes (mkPage [⟨1,1,3,3⟩] []) 2 BoxType.BOX none = none
      ∧ (∃ q, right_pad_boxes (mkPage [⟨1,1,3,3⟩] []) 2 BoxType.BOX (some (10, 10)) = some q
          ∧ q._image_size = some (10, 10))
      ∧ right_pad_boxes (mkPage [⟨1,1,3,3⟩] []) 2 BoxType.BOX none = none) :=
  ⟨rfl, grow_boxes_lazy_size_resolution (mkPage [⟨1,1,3,3⟩] []) 2 BoxType.BOX (10, 10) rfl⟩

/-- C5: is_profile_changed is true when no checksum has been stored, false
directly after update_checksum with the same snapshot, and in general true
exactly when the stored checksum is absent or differs from the checksum of
the tracked slice of the snapshot. -/
theorem is_profile_changed_spec (ps : ProcessStep) (p : Profile) :
    (ps.current_profile_checksum = none → is_profile_changed ps p = true)
    ∧ is_profile_changed (update_checksum ps p) p = false
    ∧ (is_profile_changed ps p = true ↔
        (ps.current_profile_checksum = none ∨
          ∃ c, ps.current_profile_checksum = some c
            ∧ c ≠ profile_checksum ps.sensitivity_filter p)) := by
  refine ⟨?_, ?_, ?_⟩
  · intro h; simp [is_profile_changed, h]
  · simp [is_profile_changed, update_checksum]
  · cases h : ps.current_profile_checksum with
    | none => simp [is_profile_changed, h]
    | some c => simp [is_profile_changed, h]

/-- C5 witness: a fresh step reports a changed profile. -/
theorem is_profile_changed_spec_witness :
    ({ description := "d", sensitivity_filter := none } : ProcessStep).current_profile_checksum
      = none
    ∧ is_profile_changed { description := "d", sensitivity_filter := none } [] = true :=
  ⟨rfl, (is_profile_changed_spec { description := "d", sensitivity_filter := none } []).1 rfl⟩

/-- C6: the profile checksum of a step is deterministic: two snapshots whose
values agree on every field tracked by the step (the untracked values may
differ arbitrarily) produce the same checksum. -/
theorem profile_checksum_deterministic (ps : ProcessStep) (p1 p2 : Profile)
    (hlen : p1.length = p2.length)
    (hagree : ∀ kv ∈ List.zip p1 p2,
      kv.1.1 = kv.2.1 ∧ (is_tracked ps.sensitivity_filter kv.1.1 = true → kv.1.2 = kv.2.2)) :
    profile_checksum ps.sensitivity_filter p1 = profile_checksum ps.sensitivity_filter p2 := by
  unfold profile_checksum
  rw [asdict_filtered_congr ps.sensitivity_filter p1 p2 hlen hagree]

/-- C6 witness: two snapshots differing only in the untracked field b. -/
theorem profile_checksum_deterministic_witness :
    ([("a", "1"), ("b", "2")] : Profile).length = ([("a", "1"), ("b", "3")] : Profile).length
    ∧ profile_checksum (some ["a"]) [("a", "1"), ("b", "2")]
      = profile_checksum (some ["a"]) [("a", "1"), ("b", "3")] :=
  ⟨rfl, profile_checksum_deterministic
    { description := "d", sensitivity_filter := some ["a"] } _ _ rfl (by decide)⟩

/-- C7: the resolver is not idempotent: resolving (0,0,1,1), (3,3,4,4),
(1,1,3,3) leaves the touching boxes (0,0,3,3) and (3,3,4,4) in the output,
and running the resolver again on that output merges them into (0,0,4,4),
a different set. -/
theorem resolve_overlaps_not_idempotent :
    (resolve_overlaps (mkPage [] [⟨0,0,1,1⟩, ⟨3,3,4,4⟩, ⟨1,1,3,3⟩])).merged_extended_boxes
      = [⟨0,0,3,3⟩, ⟨3,3,4,4⟩]
    ∧ (resolve_overlaps (mkPage []
        (resolve_overlaps (mkPage [] [⟨0,0,1,1⟩, ⟨3,3,4,4⟩, ⟨1,1,3,3⟩])).merged_extended_boxes)
      ).merged_extended_boxes = [⟨0,0,4,4⟩]
    ∧ ([⟨0,0,4,4⟩] : List Box) ≠ [⟨0,0,3,3⟩, ⟨3,3,4,4⟩] := by decide

/-- C8 counterexample: growing the well-formed box (0,0,10,10) by padding -6
inside bounds 100 by 100 yields (6,6,4,4): inverted coordinates, not a clamp
to zero width. -/
theorem grow_box_inverts_on_excessive_shrink :
    grow_box (-6) 100 100 ⟨0,0,10,10⟩ = ⟨6,6,4,4⟩
    ∧ ¬ ((grow_box (-6) 100 100 ⟨0,0,10,10⟩).x1 ≤ (grow_box (-6) 100 100 ⟨0,0,10,10⟩).x2) := by
  decide

/-- C8 amended: for a box within the bounds, the grow operation preserves
x1 le x2 and y1 le y2 and stays within bounds whenever the shrink magnitude
is at most half the extent on each axis (in particular for every nonnegative
padding); beyond that the code can produce inverted coordinates. -/
theorem grow_box_wellformed_of_bounded_shrink (padding W H : Int) (b : Box)
    (hx0 : 0 ≤ b.x1) (hx : b.x1 ≤ b.x2) (hxW : b.x2 ≤ W)
    (hy0 : 0 ≤ b.y1) (hy : b.y1 ≤ b.y2) (hyH : b.y2 ≤ H)
    (hpx : -(2 * padding) ≤ b.x2 - b.x1) (hpy : -(2 * padding) ≤ b.y2 - b.y1) :
    0 ≤ (grow_box padding W H b).x1
    ∧ (grow_box padding W H b).x1 ≤ (grow_box padding W H b).x2
    ∧ (grow_box padding W H b).x2 ≤ W
    ∧ 0 ≤ (grow_box padding W H b).y1
    ∧ (grow_box padding W H b).y1 ≤ (grow_box padding W H b).y2
    ∧ (grow_box padding W H b).y2 ≤ H := by
  unfold grow_box
  dsimp
  omega

/-- C8 witness: the spec scenario, growing (5,5,10,10) by 3 within 12 by 12. -/
theorem grow_box_wellformed_of_bounded_shrink_witness :
    (-(2 * (3 : Int)) ≤ 10 - 5)
    ∧ (0 ≤ (grow_box 3 12 12 ⟨5,5,10,10⟩).x1
      ∧ (grow_box 3 12 12 ⟨5,5,10,10⟩).x1 ≤ (grow_box 3 12 12 ⟨5,5,10,10⟩).x2
      ∧ (grow_box 3 12 12 ⟨5,5,10,10⟩).x2 ≤ 12
      ∧ 0 ≤ (grow_box 3 12 12 ⟨5,5,10,10⟩).y1
      ∧ (grow_box 3 12 12 ⟨5,5,10,10⟩).y1 ≤ (grow_box 3 12 12 ⟨5,5,10,10⟩).y2
      ∧ (grow_box 3 12 12 ⟨5,5,10,10⟩).y2 ≤ 12) :=
  ⟨by decide, grow_box_wellformed_of_bounded_shrink 3 12 12 ⟨5,5,10,10⟩ (by decide) (by decide)
    (by decide) (by decide) (by decide) (by decide) (by decide) (by decide)⟩

/-- C9: failed is true and the analytics success flag is false exactly when
best_mask is the none sentinel; with a present mask, failed is false and the
flag is true; both are total functions. -/
theorem failed_iff_no_best_mask (r : MaskFittingResults) :
    (r.best_mask = none → r.failed = true ∧ r.analytics.2.1 = false)
    ∧ (∀ m, r.best_mask = some m → r.failed = false ∧ r.analytics.2.1 = true) := by
  constructor
  · intro h
    simp [MaskFittingResults.failed, MaskFittingResults.analytics, h]
  · intro m h
    simp [MaskFittingResults.failed, MaskFittingResults.analytics, h]

/-- C9 witness: one failing and one successful concrete result. -/
theorem failed_iff_no_best_mask_witness :
    ({ best_mask := none, median_color := 0, mask_coords := (0, 0),
        analytics_page_path := "p.png", analytics_std_deviation := 0.0,
        analytics_mask_index := 0, mask_box := ⟨0,0,1,1⟩,
        debug_masks := [] } : MaskFittingResults).best_mask = none
    ∧ (MaskFittingResults.failed
        { best_mask := none, median_color := 0, mask_coords := (0, 0),
          analytics_page_path := "p.png", analytics_std_deviation := 0.0,
          analytics_mask_index := 0, mask_box := ⟨0,0,1,1⟩, debug_masks := [] } = true
      ∧ (MaskFittingResults.analytics
          { best_mask := none, median_color := 0, mask_coords := (0, 0),
            analytics_page_path := "p.png", analytics_std_deviation := 0.0,
            analytics_mask_index := 0, mask_box := ⟨0,0,1,1⟩, debug_masks := [] }).2.1 = false)
    ∧ (MaskFittingResults.failed
        { best_mask := some (5 : Nat), median_color := 0, mask_coords := (0, 0),
          analytics_page_path := "p.png", analytics_std_deviation := 0.0,
          analytics_mask_index := 0, mask_box := ⟨0,0,1,1⟩, debug_masks := [] } = false
      ∧ (MaskFittingResults.analytics
          { best_mask := some (5 : Nat), median_color := 0, mask_coords := (0, 0),
            analytics_page_path := "p.png", analytics_std_deviation := 0.0,
            analytics_mask_index := 0, mask_box := ⟨0,0,1,1⟩, debug_masks := [] }).2.1 = true) :=
  ⟨rfl, (failed_iff_no_best_mask _).1 rfl, (failed_iff_no_best_mask _).2 (5 : Nat) rfl⟩

/-- C10 counterexample: for the extended boxes (0,0,4,4), (3,3,10,10),
(6,6,7,7) the input box (6,6,7,7) is contained in two distinct output boxes,
so containment in exactly one output fails. -/
theorem input_box_in_two_outputs :
    (⟨6,6,7,7⟩ : Box) ∈ (mkPage [] [⟨0,0,4,4⟩, ⟨3,3,10,10⟩, ⟨6,6,7,7⟩]).extended_boxes
    ∧ (resolve_overlaps (mkPage [] [⟨0,0,4,4⟩, ⟨3,3,10,10⟩, ⟨6,6,7,7⟩])).merged_extended_boxes
      = [⟨0,0,10,10⟩, ⟨6,6,7,7⟩]
    ∧ box_contains ⟨0,0,10,10⟩ ⟨6,6,7,7⟩
    ∧ box_contains ⟨6,6,7,7⟩ ⟨6,6,7,7⟩
    ∧ (⟨0,0,10,10⟩ : Box) ≠ ⟨6,6,7,7⟩ := by decide

/-- C10 amended: every input extended box is contained in at least one
output box of the resolver, and the output has at most as many boxes as the
input has distinct boxes. -/
theorem resolve_overlaps_contains_inputs (p : PageData) :
    (∀ b ∈ p.extended_boxes,
      ∃ o ∈ (resolve_overlaps p).merged_extended_boxes, box_contains o b)
    ∧ (resolve_overlaps p).merged_extended_boxes.length
      ≤ (merge_queue_of p.extended_boxes).length := by
  constructor
  · intro b hb
    exact resolve_loop_contains _ b ((mem_merge_queue_of _ _).mpr hb)
  · exact resolve_loop_length _

/-- C10 witness: a singleton input is contained in the output. -/
theorem resolve_overlaps_contains_inputs_witness :
    (⟨0,0,1,1⟩ : Box) ∈ (mkPage [] [⟨0,0,1,1⟩]).extended_boxes
    ∧ ∃ o ∈ (resolve_overlaps (mkPage [] [⟨0,0,1,1⟩])).merged_extended_boxes,
        box_contains o ⟨0,0,1,1⟩ :=
  ⟨by decide, (resolve_overlaps_contains_inputs _).1 _ (by decide)⟩

end PCleaner
